import Mathlib

/-!
Verification of the FinOpsAI budget-alert engine.

Shallow embedding of the Python sources:
  src/analyzers/budget_alerts.py  (class BudgetAlert: add_budget, check_budgets)
  src/utils/db.py                 (get_cost_data, store_budget_alert,
                                   mark_alert_notified, get_budget_alerts)
  src/utils/notification.py       (send_email, send_slack_notification)
  src/scripts/check_budgets.py    (check_budgets_and_send_alerts)

Monetary values are modelled as rationals; calendar dates as
(year, month, day) triples compared lexicographically, matching the
'YYYY-MM-DD' string comparison done by the SQLite queries.
-/

/-- A calendar date, as produced by `datetime.date(year, month, day)`. -/
structure Date where
  year : Nat
  month : Nat
  day : Nat
deriving DecidableEq, Repr

/-- Lexicographic order on dates; agrees with the `date >= ?` / `date <= ?`
SQL comparisons on 'YYYY-MM-DD' strings. -/
def dateLE (a b : Date) : Bool :=
  decide (a.year < b.year ∨ (a.year = b.year ∧
    (a.month < b.month ∨ (a.month = b.month ∧ a.day ≤ b.day))))

/-- Gregorian leap-year test. -/
def isLeapYear (y : Nat) : Bool :=
  (y % 4 == 0 && y % 100 != 0) || (y % 400 == 0)

/-- Number of days in a month. -/
def daysInMonth (y m : Nat) : Nat :=
  if m == 2 then (if isLeapYear y then 29 else 28)
  else if m == 4 || m == 6 || m == 9 || m == 11 then 30
  else 31

/-- A (year, month, day) triple that is an actual calendar date. -/
def validDate (d : Date) : Prop :=
  1 ≤ d.month ∧ d.month ≤ 12 ∧ 1 ≤ d.day ∧ d.day ≤ daysInMonth d.year d.month

instance (d : Date) : Decidable (validDate d) := by
  unfold validDate; infer_instance

/-- One row of the `cost_data` table (src/utils/db.py, class CostData).
The real table has a `cost` column; `check_budgets` defensively falls back
to a column named `amount` when `cost` is absent, so a row carries a value
under each possible column name and the frame records which column exists. -/
structure CostRow where
  date : Date
  provider : String
  service : String
  cost : ℚ
  amountVal : ℚ
deriving DecidableEq, Repr

/-- A pandas DataFrame of cost rows: the rows plus which cost column the
frame has (`'cost' if 'cost' in cost_data.columns else 'amount'`). -/
structure CostFrame where
  rows : List CostRow
  hasCostCol : Bool
deriving DecidableEq, Repr

/-- src/utils/db.py `get_cost_data(start_date, end_date, provider)`:
`SELECT * FROM cost_data WHERE 1=1 AND date >= ? AND date <= ?
[AND provider = ?]`. The provider filter is added only when `provider`
is set. -/
def get_cost_data (ledger : CostFrame) (start_date end_date : Date)
    (provider : Option String) : CostFrame :=
  { rows := ledger.rows.filter (fun r =>
      dateLE start_date r.date && dateLE r.date end_date &&
      (match provider with
       | none => true
       | some p => r.provider == p)),
    hasCostCol := ledger.hasCostCol }

/-- A budget registry entry, the value stored by `BudgetAlert.add_budget`
(src/analyzers/budget_alerts.py). `last_alert` is omitted: no claim reads it. -/
structure BudgetEntry where
  amount : ℚ
  period : String
  provider : Option String
  service : Option String
deriving DecidableEq, Repr

/-- An alert dict built by `BudgetAlert.check_budgets` on breach. -/
structure AlertInfo where
  name : String
  budget : ℚ
  actual : ℚ
  percentage : ℚ
  period : String
  provider : String
  service : String
deriving DecidableEq, Repr

/-- The period-window computation of `check_budgets` (budget_alerts.py
lines 57-69): `monthly` starts on day 1 of the current month, `quarterly`
on day 1 of month `((month-1)//3)*3+1`, `yearly` on Jan 1; any other
period means the budget is skipped (`continue`), modelled as `none`.
The window always ends on `now.date()`. -/
def periodWindow (period : String) (now : Date) : Option (Date × Date) :=
  if period == "monthly" then
    some (⟨now.year, now.month, 1⟩, now)
  else if period == "quarterly" then
    some (⟨now.year, ((now.month - 1) / 3) * 3 + 1, 1⟩, now)
  else if period == "yearly" then
    some (⟨now.year, 1, 1⟩, now)
  else
    none

/-- The in-memory service filter of `check_budgets` (line 82-83):
applied only when `budget['service']` is set. -/
def serviceFilter (service : Option String) (rows : List CostRow) : List CostRow :=
  match service with
  | none => rows
  | some s => rows.filter (fun r => r.service == s)

/-- `cost_data[cost_column].sum()` with
`cost_column = 'cost' if 'cost' in cost_data.columns else 'amount'`
(budget_alerts.py lines 86-87). -/
def sumCostColumn (hasCostCol : Bool) (rows : List CostRow) : ℚ :=
  if hasCostCol then (rows.map (fun r => r.cost)).sum
  else (rows.map (fun r => r.amountVal)).sum

/-- The body of the per-budget loop of `BudgetAlert.check_budgets`
(budget_alerts.py lines 57-109): compute the window (skipping unknown
periods), query the ledger, skip when the query is empty, filter by
service, sum the cost column, and emit an alert iff the total exceeds
the budget amount. -/
def checkOneBudget (ledger : CostFrame) (now : Date) (name : String)
    (b : BudgetEntry) : Option AlertInfo :=
  match periodWindow b.period now with
  | none => none
  | some (start_date, end_date) =>
    let cost_data := get_cost_data ledger start_date end_date b.provider
    if cost_data.rows.isEmpty then none
    else
      let filtered := serviceFilter b.service cost_data.rows
      let total_cost := sumCostColumn cost_data.hasCostCol filtered
      if b.amount < total_cost then
        some { name := name
               budget := b.amount
               actual := total_cost
               percentage := (total_cost - b.amount) / b.amount * 100
               period := b.period
               provider := b.provider.getD "All"
               service := b.service.getD "All" }
      else none

/-- `BudgetAlert.check_budgets`: iterate over the registry in insertion
order, collecting the triggered alerts. -/
def check_budgets (ledger : CostFrame) (now : Date)
    (budgets : List (String × BudgetEntry)) : List AlertInfo :=
  budgets.filterMap (fun nb => checkOneBudget ledger now nb.1 nb.2)

/-- The aggregated spend `check_budgets` computes for one budget
(query, service filter, column sum). -/
def totalSpend (ledger : CostFrame) (start_date end_date : Date)
    (b : BudgetEntry) : ℚ :=
  sumCostColumn ledger.hasCostCol
    (serviceFilter b.service (get_cost_data ledger start_date end_date b.provider).rows)

/-- `BudgetAlert.add_budget` (budget_alerts.py lines 26-43):
`self.budgets[name] = {...}` on a Python dict. Assigning an existing key
replaces its value in place (insertion order kept); a new key is appended. -/
def add_budget (reg : List (String × BudgetEntry)) (name : String)
    (b : BudgetEntry) : List (String × BudgetEntry) :=
  if reg.any (fun p => p.1 == name) then
    reg.map (fun p => if p.1 == name then (name, b) else p)
  else
    reg ++ [(name, b)]

/-- One row of the `budget_alerts` table (src/utils/db.py, class
BudgetAlert): `notified` defaults to `False` at creation. `alert_date`
is omitted: no claim reads it. -/
structure AlertRow where
  id : Nat
  budget_id : Nat
  actual_cost : ℚ
  percentage : ℚ
  notified : Bool
deriving DecidableEq, Repr

/-- The alert-ledger portion of the database: the `budget_alerts` rows in
insertion order plus the next auto-increment id. -/
structure DBState where
  alerts : List AlertRow
  nextId : Nat
deriving DecidableEq, Repr

/-- src/utils/db.py `store_budget_alert(budget_id, actual_cost, percentage)`:
inserts a row with `notified` at its default `False` and returns the new id. -/
def store_budget_alert (s : DBState) (budget_id : Nat) (actual_cost percentage : ℚ) :
    DBState × Nat :=
  (⟨s.alerts ++ [⟨s.nextId, budget_id, actual_cost, percentage, false⟩], s.nextId + 1⟩,
   s.nextId)

/-- Helper for `mark_alert_notified`: `.filter(BudgetAlert.id == alert_id).first()`
followed by `alert.notified = True` updates the first matching row in place;
no match leaves every row untouched. -/
def markFirst : List AlertRow → Nat → List AlertRow
  | [], _ => []
  | r :: rs, aid =>
    if r.id == aid then { r with notified := true } :: rs
    else r :: markFirst rs aid

/-- src/utils/db.py `mark_alert_notified(alert_id)`: looks the alert up by
id; when found sets `notified = True` and commits, otherwise does nothing. -/
def mark_alert_notified (s : DBState) (alert_id : Nat) : DBState :=
  { s with alerts := markFirst s.alerts alert_id }

/-- src/utils/db.py `get_budget_alerts(budget_id, notified)`: a read-only
query with optional equality filters. -/
def get_budget_alerts (s : DBState) (budget_id : Option Nat)
    (notified : Option Bool) : List AlertRow :=
  s.alerts.filter (fun r =>
    (match budget_id with
     | none => true
     | some b => r.budget_id == b) &&
    (match notified with
     | none => true
     | some n => r.notified == n))

/-- An operation on the alert ledger, as exposed by src/utils/db.py. -/
inductive DBOp where
  | store (budget_id : Nat) (actual_cost percentage : ℚ)
  | mark (alert_id : Nat)
  | query (budget_id : Option Nat) (notified : Option Bool)
deriving DecidableEq, Repr

/-- Effect of one ledger operation on the state; `get_budget_alerts` only
reads (`pd.read_sql_query`), so `query` leaves the state unchanged. -/
def applyOp (s : DBState) : DBOp → DBState
  | .store bid ac pc => (store_budget_alert s bid ac pc).1
  | .mark aid => mark_alert_notified s aid
  | .query _ _ => s

/-- Run a sequence of ledger operations. -/
def runOps (s : DBState) (ops : List DBOp) : DBState :=
  ops.foldl applyOp s

/-- The notification configuration (config.py values consumed by
src/utils/notification.py). Falsy strings/lists are empty ones. -/
structure NotifConfig where
  enableEmail : Bool
  emailSender : String
  emailRecipients : List String
  enableSlack : Bool
  slackWebhookUrl : String
deriving DecidableEq, Repr

/-- The outcome the outside world would give each channel if its I/O were
attempted: `Except.error` is a raised exception; for Slack an `ok` carries
the HTTP status code of the webhook response. -/
structure ChannelEnv where
  emailResult : Except Unit Unit
  slackResult : Except Unit Nat
deriving Repr

/-- src/utils/notification.py `send_email(subject, body)` as called with no
explicit recipients: disabled flag, empty sender, or empty recipient list
returns False before any I/O; otherwise the SMTP send either succeeds
(True) or raises, and the exception is caught and turned into False.
Returns (result, whether I/O was attempted). -/
def send_email (cfg : NotifConfig) (env : ChannelEnv) : Bool × Bool :=
  if !cfg.enableEmail || cfg.emailSender == "" then (false, false)
  else if cfg.emailRecipients.isEmpty then (false, false)
  else
    match env.emailResult with
    | .error _ => (false, true)
    | .ok _ => (true, true)

/-- src/utils/notification.py `send_slack_notification(message)` as called
with no explicit webhook: disabled flag or empty webhook URL returns False
before any I/O; otherwise the POST either raises (caught, False) or
returns a response, and the result is `status_code == 200`.
Returns (result, whether I/O was attempted). -/
def send_slack_notification (cfg : NotifConfig) (env : ChannelEnv) : Bool × Bool :=
  if !cfg.enableSlack then (false, false)
  else if cfg.slackWebhookUrl == "" then (false, false)
  else
    match env.slackResult with
    | .error _ => (false, true)
    | .ok status => (status == 200, true)

/-- One row of the `budgets` table (src/utils/db.py, class Budget). -/
structure BudgetRow where
  id : Nat
  name : String
  amount : ℚ
  period : String
  provider : Option String
  service : Option String
deriving DecidableEq, Repr

/-- src/scripts/check_budgets.py lines 33-40: load every budget row into a
fresh `BudgetAlert` registry via `add_budget`. -/
def registryOf (bs : List BudgetRow) : List (String × BudgetEntry) :=
  bs.foldl (fun reg b => add_budget reg b.name ⟨b.amount, b.period, b.provider, b.service⟩) []

/-- check_budgets.py lines 55-60: scan the budgets DataFrame for the first
row whose name matches the alert and take its id. -/
def findBudgetId (bs : List BudgetRow) (name : String) : Option Nat :=
  (bs.find? (fun b => b.name == name)).map (fun b => b.id)

/-- check_budgets.py lines 108-113, the dispatch step applied to a freshly
stored alert: attempt both channels and mark the stored alert notified iff
`email_sent or slack_sent`; otherwise leave the ledger untouched. -/
def dispatchStored (cfg : NotifConfig) (env : ChannelEnv) (alert_id : Nat)
    (s : DBState) : DBState :=
  let email_sent := (send_email cfg env).1
  let slack_sent := (send_slack_notification cfg env).1
  if email_sent || slack_sent then mark_alert_notified s alert_id
  else s

/-- check_budgets.py lines 52-113, the per-alert body: resolve the budget
id (missing id: continue), store the alert row, then (unless the returned
id is falsy, i.e. 0) attempt both channels and mark the stored alert
notified iff `email_sent or slack_sent`. -/
def processAlert (cfg : NotifConfig) (env : ChannelEnv) (bs : List BudgetRow)
    (s : DBState) (alert : AlertInfo) : DBState :=
  match findBudgetId bs alert.name with
  | none => s
  | some budget_id =>
    let stored := store_budget_alert s budget_id alert.actual alert.percentage
    if stored.2 == 0 then stored.1
    else dispatchStored cfg env stored.2 stored.1

/-- src/scripts/check_budgets.py `check_budgets_and_send_alerts()`: return
unchanged when no budgets are defined; otherwise build the registry, run
`check_budgets`, and process each alert in order. -/
def check_budgets_and_send_alerts (cfg : NotifConfig) (env : ChannelEnv)
    (bs : List BudgetRow) (ledger : CostFrame) (now : Date) (s : DBState) : DBState :=
  if bs.isEmpty then s
  else
    let alerts := check_budgets ledger now (registryOf bs)
    alerts.foldl (processAlert cfg env bs) s

/-- Number of stored alert rows that reference a given budget. -/
def countAlertsFor (budget_id : Nat) (s : DBState) : Nat :=
  (s.alerts.filter (fun r => r.budget_id == budget_id)).length

/-! ### Concrete fixtures used by the scenario parts of the claims -/

/-- A mid-month evaluation instant: June 15, 2025. -/
def nowMid2025 : Date := ⟨2025, 6, 15⟩

/-- One in-window cost row of 1250 (spec scenario: amount=1000, spend=1250). -/
def ledgerSpend1250 : CostFrame :=
  ⟨[⟨⟨2025, 6, 5⟩, "AWS", "EC2", 1250, 0⟩], true⟩

/-- A monthly budget of 1000 with no provider/service scope. -/
def budgetAmount1000 : BudgetEntry := ⟨1000, "monthly", none, none⟩

/-- Spec §8 scenario ledger: AWS/EC2 rows summing to 620 in the current
month, AWS/S3 rows summing to 300 (to be excluded by the service filter),
one out-of-window AWS/EC2 row and one other-provider row. -/
def ledgerScenario : CostFrame :=
  ⟨[⟨⟨2025, 6, 3⟩, "AWS", "EC2", 300, 0⟩,
    ⟨⟨2025, 6, 10⟩, "AWS", "EC2", 320, 0⟩,
    ⟨⟨2025, 6, 4⟩, "AWS", "S3", 200, 0⟩,
    ⟨⟨2025, 6, 8⟩, "AWS", "S3", 100, 0⟩,
    ⟨⟨2025, 5, 20⟩, "AWS", "EC2", 999, 0⟩,
    ⟨⟨2025, 6, 5⟩, "GCP", "EC2", 50, 0⟩], true⟩

/-- Spec §8 scenario budget: {amount=500, period=monthly, provider=AWS,
service=EC2}. -/
def budgetAWSCompute : BudgetEntry := ⟨500, "monthly", some "AWS", some "EC2"⟩

/-- A frame whose cost column is named `amount` rather than `cost`,
exercising the column-name fallback. -/
def ledgerFallbackCol : CostFrame :=
  ⟨[⟨⟨2025, 6, 2⟩, "AWS", "EC2", 0, 700⟩], false⟩

/-- A one-row budgets table whose budget is breached by `ledgerSpend1250`. -/
def budgetsTableOne : List BudgetRow :=
  [⟨1, "Total", 1000, "monthly", none, none⟩]

/-! ### Theorems -/

/-- C2: for every timestamp `now`, the evaluation window starts on day 1 of
`now`'s month for period `monthly` (for any valid day, Feb 29 of leap years
included), on day 1 of month `((month-1)//3)*3+1` for `quarterly` — a month
in {1,4,7,10} whenever `now.month` is in 1..12 — and on Jan 1 of `now`'s
year for `yearly`; in each case the window ends on `now`'s date. -/
theorem periodWindow_start_of_period (now : Date) (h : validDate now) :
    periodWindow "monthly" now = some (⟨now.year, now.month, 1⟩, now) ∧
    periodWindow "quarterly" now =
      some (⟨now.year, ((now.month - 1) / 3) * 3 + 1, 1⟩, now) ∧
    ((now.month - 1) / 3) * 3 + 1 ∈ ([1, 4, 7, 10] : List Nat) ∧
    periodWindow "yearly" now = some (⟨now.year, 1, 1⟩, now) := by
  refine ⟨rfl, rfl, ?_, rfl⟩
  obtain ⟨h1, h2, -, -⟩ := h
  simp only [List.mem_cons, List.not_mem_nil, or_false]
  omega

/-- Witness for `periodWindow_start_of_period` at Feb 29, 2024 (leap year). -/
theorem periodWindow_start_of_period_witness :
    periodWindow "monthly" ⟨2024, 2, 29⟩ = some (⟨2024, 2, 1⟩, ⟨2024, 2, 29⟩) ∧
    periodWindow "quarterly" ⟨2024, 2, 29⟩ = some (⟨2024, 1, 1⟩, ⟨2024, 2, 29⟩) ∧
    periodWindow "yearly" ⟨2024, 2, 29⟩ = some (⟨2024, 1, 1⟩, ⟨2024, 2, 29⟩) := by
  have h := periodWindow_start_of_period ⟨2024, 2, 29⟩ (by decide)
  exact ⟨h.1, h.2.1, h.2.2.2⟩

/-- C4: a budget whose period is none of `monthly`, `quarterly`, `yearly`
is skipped by `check_budgets`: it yields no alert and the remaining budgets
are evaluated exactly as if it were absent. -/
theorem unknown_period_budget_skipped (ledger : CostFrame) (now : Date)
    (name : String) (b : BudgetEntry)
    (h : b.period ∉ (["monthly", "quarterly", "yearly"] : List String)) :
    checkOneBudget ledger now name b = none ∧
    ∀ pre post, check_budgets ledger now (pre ++ (name, b) :: post) =
      check_budgets ledger now (pre ++ post) := by
  simp only [List.mem_cons, List.not_mem_nil, or_false, not_or] at h
  obtain ⟨h1, h2, h3⟩ := h
  have hwin : periodWindow b.period now = none := by
    simp [periodWindow, h1, h2, h3]
  have hone : checkOneBudget ledger now name b = none := by
    simp [checkOneBudget, hwin]
  refine ⟨hone, fun pre post => ?_⟩
  simp [check_budgets, List.filterMap_append, List.filterMap_cons, hone]

/-- Witness for `unknown_period_budget_skipped`: a `weekly` budget among two
well-formed ones produces no alert of its own and changes nothing. -/
theorem unknown_period_budget_skipped_witness :
    checkOneBudget ledgerSpend1250 nowMid2025 "W" ⟨10, "weekly", none, none⟩ = none ∧
    check_budgets ledgerSpend1250 nowMid2025
      ([("Total", budgetAmount1000)] ++ ("W", ⟨10, "weekly", none, none⟩) :: []) =
      check_budgets ledgerSpend1250 nowMid2025 ([("Total", budgetAmount1000)] ++ []) := by
  have h := unknown_period_budget_skipped ledgerSpend1250 nowMid2025 "W"
    ⟨10, "weekly", none, none⟩ (by decide)
  exact ⟨h.1, h.2 [("Total", budgetAmount1000)] []⟩

/-- C1: for every budget evaluated over a valid window, an alert is emitted
iff the aggregated spend strictly exceeds the budget amount (equality does
not trigger), on breach the alert carries the aggregated spend and
percentage `(actual - amount) / amount * 100`; and the concrete instance
amount=1000, spend=1250 yields percentage 25. -/
theorem breach_iff_spend_exceeds_amount :
    (∀ (ledger : CostFrame) (now : Date) (name : String) (b : BudgetEntry)
       (start_date end_date : Date),
       periodWindow b.period now = some (start_date, end_date) →
       0 < b.amount →
       ((checkOneBudget ledger now name b).isSome ↔
         b.amount < totalSpend ledger start_date end_date b) ∧
       (∀ a, checkOneBudget ledger now name b = some a →
         a.actual = totalSpend ledger start_date end_date b ∧
         a.percentage = (a.actual - b.amount) / b.amount * 100)) ∧
    checkOneBudget ledgerSpend1250 nowMid2025 "Total" budgetAmount1000 =
      some ⟨"Total", 1000, 1250, 25, "monthly", "All", "All"⟩ := by
  constructor
  · intro ledger now name b sd ed hwin hpos
    have hcol : (get_cost_data ledger sd ed b.provider).hasCostCol = ledger.hasCostCol := rfl
    simp only [checkOneBudget, hwin]
    by_cases hemp : (get_cost_data ledger sd ed b.provider).rows.isEmpty
    · have hrows : (get_cost_data ledger sd ed b.provider).rows = [] :=
        List.isEmpty_iff.mp hemp
      have hsf : serviceFilter b.service (get_cost_data ledger sd ed b.provider).rows = [] := by
        rw [hrows]; cases b.service <;> rfl
      have htot : totalSpend ledger sd ed b = 0 := by
        rw [totalSpend, hsf]; cases ledger.hasCostCol <;> rfl
      simp [hemp, htot, not_lt.mpr hpos.le]
    · have htot : sumCostColumn (get_cost_data ledger sd ed b.provider).hasCostCol
          (serviceFilter b.service (get_cost_data ledger sd ed b.provider).rows) =
          totalSpend ledger sd ed b := by
        rw [totalSpend, hcol]
      by_cases hc : b.amount <
          totalSpend ledger sd ed b
      · simp only [hemp, Bool.false_eq_true, if_false, htot, hc, if_true]
        refine ⟨by simp, fun a ha => ?_⟩
        have ha' := (Option.some_inj.mp ha).symm
        subst ha'
        exact ⟨rfl, rfl⟩
      · simp [hemp, htot, hc]
  · simp only [checkOneBudget, periodWindow, get_cost_data, ledgerSpend1250, nowMid2025,
      budgetAmount1000, serviceFilter, sumCostColumn, dateLE, List.filter]
    norm_num

/-- Witness for `breach_iff_spend_exceeds_amount` on the amount=1000 /
spend=1250 fixture: evaluated there (window = June 2025), the alert exists
and equality of spend with the 1000 amount would not have triggered. -/
theorem breach_iff_spend_exceeds_amount_witness :
    ((checkOneBudget ledgerSpend1250 nowMid2025 "Total" budgetAmount1000).isSome ↔
      (1000 : ℚ) < totalSpend ledgerSpend1250 ⟨2025, 6, 1⟩ nowMid2025 budgetAmount1000) ∧
    checkOneBudget ledgerSpend1250 nowMid2025 "Total" budgetAmount1000 =
      some ⟨"Total", 1000, 1250, 25, "monthly", "All", "All"⟩ :=
  ⟨(breach_iff_spend_exceeds_amount.1 ledgerSpend1250 nowMid2025 "Total" budgetAmount1000
      ⟨2025, 6, 1⟩ nowMid2025 rfl (by decide)).1,
   breach_iff_spend_exceeds_amount.2⟩

/-- C5: when the cost records matching a budget's window and filters are
empty, the aggregated spend is 0 and `check_budgets` emits no alert for
that budget. -/
theorem empty_matching_records_no_alert (ledger : CostFrame) (now : Date)
    (name : String) (b : BudgetEntry) (start_date end_date : Date)
    (hwin : periodWindow b.period now = some (start_date, end_date))
    (hpos : 0 < b.amount)
    (hempty : serviceFilter b.service
      (get_cost_data ledger start_date end_date b.provider).rows = []) :
    totalSpend ledger start_date end_date b = 0 ∧
    checkOneBudget ledger now name b = none := by
  have hcol : (get_cost_data ledger start_date end_date b.provider).hasCostCol =
      ledger.hasCostCol := rfl
  have htot : totalSpend ledger start_date end_date b = 0 := by
    rw [totalSpend, hempty]; cases ledger.hasCostCol <;> rfl
  refine ⟨htot, ?_⟩
  simp only [checkOneBudget, hwin]
  by_cases hemp : (get_cost_data ledger start_date end_date b.provider).rows.isEmpty
  · simp [hemp]
  · have hz : sumCostColumn (get_cost_data ledger start_date end_date b.provider).hasCostCol
        (serviceFilter b.service (get_cost_data ledger start_date end_date b.provider).rows) =
        (0 : ℚ) := by
      rw [hempty, hcol]; cases ledger.hasCostCol <;> rfl
    simp [hemp, hz, not_lt.mpr hpos.le]

/-- Witness for `empty_matching_records_no_alert`: the scenario ledger holds
no `GCP` rows, so a GCP-scoped budget gets spend 0 and no alert. -/
theorem empty_matching_records_no_alert_witness :
    totalSpend ledgerScenario ⟨2025, 6, 1⟩ nowMid2025 ⟨100, "monthly", some "GCP", some "S3"⟩ = 0 ∧
    checkOneBudget ledgerScenario nowMid2025 "G" ⟨100, "monthly", some "GCP", some "S3"⟩ = none :=
  empty_matching_records_no_alert ledgerScenario nowMid2025 "G"
    ⟨100, "monthly", some "GCP", some "S3"⟩ ⟨2025, 6, 1⟩ nowMid2025 rfl (by decide) (by decide)

/-- C9: registering a budget under an already-used name replaces the earlier
definition in place, and name-keyed uniqueness of the registry is preserved
by every `add_budget` call. -/
theorem add_budget_same_name_replaces (reg : List (String × BudgetEntry))
    (name : String) (b1 b2 : BudgetEntry) :
    add_budget (add_budget reg name b1) name b2 = add_budget reg name b2 ∧
    ((reg.map Prod.fst).Nodup → ((add_budget reg name b2).map Prod.fst).Nodup) := by
  by_cases hmem : (reg.any fun p => p.1 == name) = true
  · obtain ⟨q, hq, hqn⟩ := List.any_eq_true.mp hmem
    have e1 : add_budget reg name b1 =
        reg.map (fun p => if p.1 == name then (name, b1) else p) := by
      rw [add_budget, if_pos hmem]
    have e2 : add_budget reg name b2 =
        reg.map (fun p => if p.1 == name then (name, b2) else p) := by
      rw [add_budget, if_pos hmem]
    have hmem1 : ((reg.map fun p => if p.1 == name then (name, b1) else p).any
        fun p => p.1 == name) = true := by
      refine List.any_eq_true.mpr ⟨(name, b1), List.mem_map.mpr ⟨q, hq, ?_⟩, by simp⟩
      simp [hqn]
    constructor
    · rw [e1, add_budget, if_pos hmem1, e2, List.map_map]
      refine List.map_congr_left (fun p _ => ?_)
      by_cases hp : (p.1 == name) = true
      · simp [Function.comp, hp]
      · simp [Function.comp, hp]
    · intro hnd
      have hkeys : (add_budget reg name b2).map Prod.fst = reg.map Prod.fst := by
        rw [e2, List.map_map]
        refine List.map_congr_left (fun p _ => ?_)
        by_cases hp : (p.1 == name) = true
        · simp [Function.comp, hp, (eq_of_beq hp).symm]
        · simp [Function.comp, hp]
      rw [hkeys]; exact hnd
  · have hany : (reg.any fun p => p.1 == name) = false :=
      Bool.eq_false_iff.mpr hmem
    have hnotin : ∀ p ∈ reg, (p.1 == name) = false := by
      intro p hp
      by_contra hne
      exact hmem (List.any_eq_true.mpr ⟨p, hp, by simpa using hne⟩)
    have hid : (reg.map fun p => if p.1 == name then (name, b2) else p) = reg := by
      refine (List.map_congr_left (fun p hp => ?_)).trans (List.map_id reg)
      rw [hnotin p hp]; rfl
    have e1 : add_budget reg name b1 = reg ++ [(name, b1)] := by
      rw [add_budget, if_neg hmem]
    have e2 : add_budget reg name b2 = reg ++ [(name, b2)] := by
      rw [add_budget, if_neg hmem]
    constructor
    · have hmem1 : ((reg ++ [(name, b1)]).any fun p => p.1 == name) = true := by
        refine List.any_eq_true.mpr ⟨(name, b1), ?_, by simp⟩
        simp
      rw [e1, add_budget, if_pos hmem1, e2, List.map_append, hid]
      simp
    · intro hnd
      have hfst : name ∉ reg.map Prod.fst := by
        intro hin
        obtain ⟨p, hp, hpeq⟩ := List.mem_map.mp hin
        have := hnotin p hp
        rw [hpeq] at this
        simp at this
      rw [e2, List.map_append]
      simp [List.nodup_append, hnd, hfst]

/-- Witness for `add_budget_same_name_replaces`: re-adding name "A" keeps a
single entry carrying the second definition. -/
theorem add_budget_same_name_replaces_witness :
    add_budget (add_budget [("B", budgetAmount1000)] "A" budgetAWSCompute) "A" budgetAmount1000 =
      add_budget [("B", budgetAmount1000)] "A" budgetAmount1000 ∧
    ((add_budget [("B", budgetAmount1000)] "A" budgetAmount1000).map Prod.fst).Nodup :=
  ⟨(add_budget_same_name_replaces [("B", budgetAmount1000)] "A" budgetAWSCompute budgetAmount1000).1,
   (add_budget_same_name_replaces [("B", budgetAmount1000)] "A" budgetAWSCompute budgetAmount1000).2
     (by decide)⟩

/-- C10: `mark_alert_notified` with an id that matches no stored alert is a
no-op: the state is returned unchanged, without error. -/
theorem mark_alert_notified_missing_id_noop (s : DBState) (alert_id : Nat)
    (h : ∀ r ∈ s.alerts, r.id ≠ alert_id) :
    mark_alert_notified s alert_id = s := by
  have key : ∀ as : List AlertRow, (∀ r ∈ as, r.id ≠ alert_id) →
      markFirst as alert_id = as := by
    intro as
    induction as with
    | nil => intro _; rfl
    | cons r rs ih =>
      intro hh
      have hr : (r.id == alert_id) = false := by
        simpa using hh r (List.mem_cons_self r rs)
      simp only [markFirst, hr, Bool.false_eq_true, if_false, List.cons.injEq, true_and]
      exact ih (fun x hx => hh x (List.mem_cons_of_mem r hx))
  cases s with
  | mk alerts nextId => simp [mark_alert_notified, key alerts h]

/-- C3: an emitted alert's `actual` is the sum of the cost column (with the
`amount`-column fallback) over the window-and-provider query further
filtered in memory by service; in the spec §8 scenario (amount=500,
provider=AWS, service=EC2, AWS/EC2 rows summing to 620, AWS/S3 rows
summing to 300) exactly one alert is produced with actual 620 and
percentage 24, and a frame without a `cost` column sums the `amount`
column instead. -/
theorem spend_aggregation_scoped_with_fallback :
    (∀ (ledger : CostFrame) (now : Date) (name : String) (b : BudgetEntry)
       (a : AlertInfo) (start_date end_date : Date),
       periodWindow b.period now = some (start_date, end_date) →
       checkOneBudget ledger now name b = some a →
       a.actual = sumCostColumn ledger.hasCostCol
         (serviceFilter b.service
           (get_cost_data ledger start_date end_date b.provider).rows)) ∧
    check_budgets ledgerScenario nowMid2025 [("AWS-Compute", budgetAWSCompute)] =
      [⟨"AWS-Compute", 500, 620, 24, "monthly", "AWS", "EC2"⟩] ∧
    check_budgets ledgerFallbackCol nowMid2025 [("FB", budgetAWSCompute)] =
      [⟨"FB", 500, 700, 40, "monthly", "AWS", "EC2"⟩] := by
  refine ⟨?_, ?_, ?_⟩
  · intro ledger now name b a sd ed hwin ha
    have hcol : (get_cost_data ledger sd ed b.provider).hasCostCol = ledger.hasCostCol := rfl
    rw [← hcol]
    simp only [checkOneBudget, hwin] at ha
    by_cases hemp : (get_cost_data ledger sd ed b.provider).rows.isEmpty
    · simp [hemp] at ha
    · simp only [hemp, Bool.false_eq_true, if_false] at ha
      by_cases hc : b.amount < sumCostColumn (get_cost_data ledger sd ed b.provider).hasCostCol
          (serviceFilter b.service (get_cost_data ledger sd ed b.provider).rows)
      · rw [if_pos hc] at ha
        have := (Option.some_inj.mp ha).symm
        subst this
        rfl
      · rw [if_neg hc] at ha
        exact absurd ha (by simp)
  · simp [check_budgets, List.filterMap, checkOneBudget, periodWindow, get_cost_data,
      ledgerScenario, nowMid2025, budgetAWSCompute, serviceFilter, sumCostColumn, dateLE,
      List.filter]
    norm_num
  · simp [check_budgets, List.filterMap, checkOneBudget, periodWindow, get_cost_data,
      ledgerFallbackCol, nowMid2025, budgetAWSCompute, serviceFilter, sumCostColumn, dateLE,
      List.filter]
    norm_num

/-- Witness for `spend_aggregation_scoped_with_fallback`: in the §8 scenario
the emitted alert's `actual` equals the scoped aggregation of the ledger. -/
theorem spend_aggregation_scoped_with_fallback_witness :
    (⟨"AWS-Compute", 500, 620, 24, "monthly", "AWS", "EC2"⟩ : AlertInfo).actual =
      sumCostColumn ledgerScenario.hasCostCol
        (serviceFilter budgetAWSCompute.service
          (get_cost_data ledgerScenario ⟨2025, 6, 1⟩ nowMid2025 budgetAWSCompute.provider).rows) :=
  spend_aggregation_scoped_with_fallback.1 ledgerScenario nowMid2025 "AWS-Compute"
    budgetAWSCompute ⟨"AWS-Compute", 500, 620, 24, "monthly", "AWS", "EC2"⟩
    ⟨2025, 6, 1⟩ nowMid2025 rfl
    (by
      simp [checkOneBudget, periodWindow, get_cost_data, ledgerScenario, nowMid2025,
        budgetAWSCompute, serviceFilter, sumCostColumn, dateLE, List.filter]
      norm_num)

/-- Witness for `mark_alert_notified_missing_id_noop`: marking id 7 in a
ledger whose only alert has id 1 changes nothing. -/
theorem mark_alert_notified_missing_id_noop_witness :
    mark_alert_notified ⟨[⟨1, 1, 1250, 25, false⟩], 2⟩ 7 = ⟨[⟨1, 1, 1250, 25, false⟩], 2⟩ :=
  mark_alert_notified_missing_id_noop ⟨[⟨1, 1, 1250, 25, false⟩], 2⟩ 7 (by decide)

/-- `markFirst` keeps the list length. -/
theorem markFirst_length (as : List AlertRow) (aid : Nat) :
    (markFirst as aid).length = as.length := by
  induction as with
  | nil => rfl
  | cons r rs ih =>
    simp only [markFirst]
    by_cases h : (r.id == aid) = true
    · rw [if_pos h]; simp
    · rw [if_neg h]; simp [ih]

/-- Each position of `markFirst` holds the original row, possibly with
`notified` set to true. -/
theorem markFirst_getElem? (as : List AlertRow) (aid i : Nat) :
    (markFirst as aid)[i]? = as[i]? ∨
    ∃ r, as[i]? = some r ∧
      (markFirst as aid)[i]? = some { r with notified := true } := by
  induction as generalizing i with
  | nil => left; rfl
  | cons a rs ih =>
    simp only [markFirst]
    by_cases h : (a.id == aid) = true
    · rw [if_pos h]
      cases i with
      | zero => right; exact ⟨a, by simp, by simp⟩
      | succ j => left; simp
    · rw [if_neg h]
      cases i with
      | zero => left; simp
      | succ j => simpa using ih j

/-- One ledger operation preserves each existing row's position, id and
budget reference, and never clears `notified`. -/
theorem applyOp_row_preserved (s : DBState) (op : DBOp) (i : Nat) (r : AlertRow)
    (h : s.alerts[i]? = some r) :
    ∃ r', (applyOp s op).alerts[i]? = some r' ∧ r'.id = r.id ∧
      r'.budget_id = r.budget_id ∧ (r.notified = true → r'.notified = true) := by
  cases op with
  | store bid ac pc =>
    refine ⟨r, ?_, rfl, rfl, fun hn => hn⟩
    have hi : i < s.alerts.length := by
      by_contra hge
      rw [List.getElem?_eq_none (not_lt.mp hge)] at h
      exact Option.noConfusion h
    show (s.alerts ++ [_])[i]? = some r
    rw [List.getElem?_append_left hi]
    exact h
  | mark aid =>
    rcases markFirst_getElem? s.alerts aid i with hcase | ⟨r0, hr0, hm⟩
    · refine ⟨r, ?_, rfl, rfl, fun hn => hn⟩
      show (markFirst s.alerts aid)[i]? = some r
      rw [hcase]; exact h
    · rw [h] at hr0
      have he : r0 = r := (Option.some_inj.mp hr0).symm
      subst he
      exact ⟨{ r0 with notified := true }, hm, rfl, rfl, fun _ => rfl⟩
  | query b n => exact ⟨r, h, rfl, rfl, fun hn => hn⟩

/-- A whole sequence of ledger operations preserves each existing row's
position and id and never clears `notified`. -/
theorem runOps_row_preserved (ops : List DBOp) (s : DBState) (i : Nat) (r : AlertRow)
    (h : s.alerts[i]? = some r) :
    ∃ r', (runOps s ops).alerts[i]? = some r' ∧ r'.id = r.id ∧
      (r.notified = true → r'.notified = true) := by
  induction ops generalizing s r with
  | nil => exact ⟨r, h, rfl, fun hn => hn⟩
  | cons op rest ih =>
    obtain ⟨r1, h1, hid1, _, hn1⟩ := applyOp_row_preserved s op i r h
    obtain ⟨r2, h2, hid2, hn2⟩ := ih (applyOp s op) r1 h1
    exact ⟨r2, h2, hid2.trans hid1, fun hn => hn2 (hn1 hn)⟩

/-- C7: a stored alert is created with `notified = false`, and across every
sequence of ledger operations (stores, marks, queries) a row that is
notified stays notified — the flag only ever moves false→true. -/
theorem notified_created_false_and_monotone :
    (∀ (s : DBState) (bid : Nat) (ac pc : ℚ),
       (store_budget_alert s bid ac pc).1.alerts.getLast? =
         some ⟨s.nextId, bid, ac, pc, false⟩) ∧
    (∀ (ops : List DBOp) (s : DBState) (i : Nat) (r : AlertRow),
       s.alerts[i]? = some r → r.notified = true →
       ∃ r', (runOps s ops).alerts[i]? = some r' ∧ r'.id = r.id ∧
         r'.notified = true) := by
  constructor
  · intro s bid ac pc
    simp [store_budget_alert]
  · intro ops s i r h hn
    obtain ⟨r', h', hid, hmono⟩ := runOps_row_preserved ops s i r h
    exact ⟨r', h', hid, hmono hn⟩

/-- Witness for `notified_created_false_and_monotone`: a freshly stored
alert starts unnotified, and an already-notified row (id 1) survives a
mark, a store and a query still notified. -/
theorem notified_created_false_and_monotone_witness :
    (store_budget_alert ⟨[], 1⟩ 4 620 24).1.alerts.getLast? =
      some ⟨1, 4, 620, 24, false⟩ ∧
    ∃ r', (runOps ⟨[⟨1, 4, 620, 24, true⟩], 2⟩
        [.mark 1, .store 5 10 1, .query none none]).alerts[0]? = some r' ∧
      r'.id = 1 ∧ r'.notified = true :=
  ⟨notified_created_false_and_monotone.1 ⟨[], 1⟩ 4 620 24,
   notified_created_false_and_monotone.2 [.mark 1, .store 5 10 1, .query none none]
     ⟨[⟨1, 4, 620, 24, true⟩], 2⟩ 0 ⟨1, 4, 620, 24, true⟩ rfl rfl⟩

/-- When no earlier row carries the target id, `markFirst` marks exactly
the appended row. -/
theorem markFirst_append_fresh (as : List AlertRow) (b : AlertRow) (aid : Nat)
    (hfresh : ∀ r ∈ as, r.id ≠ aid) (hb : b.id = aid) :
    markFirst (as ++ [b]) aid = as ++ [{ b with notified := true }] := by
  induction as with
  | nil =>
    simp only [List.nil_append, markFirst]
    rw [if_pos (by simp [hb])]
  | cons r rs ih =>
    have hr : (r.id == aid) = false := by
      simpa using hfresh r (List.mem_cons_self r rs)
    simp only [List.cons_append, markFirst, hr, Bool.false_eq_true, if_false,
      List.cons.injEq, true_and]
    exact ih (fun x hx => hfresh x (List.mem_cons_of_mem r hx))

/-- C6: each notification channel is attempted independently — a disabled
or unconfigured channel returns false without attempting I/O, a channel
exception is caught and yields false — the alert stored by the dispatch
cycle ends with `notified` true iff at least one channel returned true,
and with both channels disabled arbitrarily many dispatch attempts leave
the ledger (hence the alert's `notified = false`) unchanged. -/
theorem dispatch_channels_independent :
    (∀ (cfg : NotifConfig) (env : ChannelEnv),
       (cfg.enableEmail = false ∨ cfg.emailSender = "" ∨ cfg.emailRecipients = []) →
       send_email cfg env = (false, false)) ∧
    (∀ (cfg : NotifConfig) (env : ChannelEnv),
       (cfg.enableSlack = false ∨ cfg.slackWebhookUrl = "") →
       send_slack_notification cfg env = (false, false)) ∧
    (∀ (cfg : NotifConfig) (env : ChannelEnv) (e : Unit),
       env.emailResult = .error e → (send_email cfg env).1 = false) ∧
    (∀ (cfg : NotifConfig) (env : ChannelEnv) (e : Unit),
       env.slackResult = .error e → (send_slack_notification cfg env).1 = false) ∧
    (∀ (cfg : NotifConfig) (env : ChannelEnv) (s : DBState) (bid : Nat) (ac pc : ℚ),
       (∀ r ∈ s.alerts, r.id ≠ s.nextId) →
       (dispatchStored cfg env (store_budget_alert s bid ac pc).2
           (store_budget_alert s bid ac pc).1).alerts.getLast? =
         some ⟨s.nextId, bid, ac, pc,
           (send_email cfg env).1 || (send_slack_notification cfg env).1⟩) ∧
    (∀ (cfg : NotifConfig) (env : ChannelEnv) (alert_id : Nat) (s : DBState) (n : Nat),
       cfg.enableEmail = false → cfg.enableSlack = false →
       (dispatchStored cfg env alert_id)^[n] s = s) := by
  have hemail_off : ∀ (cfg : NotifConfig) (env : ChannelEnv),
      (cfg.enableEmail = false ∨ cfg.emailSender = "" ∨ cfg.emailRecipients = []) →
      send_email cfg env = (false, false) := by
    intro cfg env h
    rcases h with h | h | h
    · simp [send_email, h]
    · simp [send_email, h]
    · by_cases he : (!cfg.enableEmail || cfg.emailSender == "") = true
      · simp [send_email, he]
      · simp [send_email, he, h]
  have hslack_off : ∀ (cfg : NotifConfig) (env : ChannelEnv),
      (cfg.enableSlack = false ∨ cfg.slackWebhookUrl = "") →
      send_slack_notification cfg env = (false, false) := by
    intro cfg env h
    rcases h with h | h
    · simp [send_slack_notification, h]
    · by_cases he : (!cfg.enableSlack) = true
      · simp [send_slack_notification, he]
      · simp [send_slack_notification, he, h]
  refine ⟨hemail_off, hslack_off, ?_, ?_, ?_, ?_⟩
  · intro cfg env e h
    by_cases h1 : (!cfg.enableEmail || cfg.emailSender == "") = true
    · simp [send_email, h1]
    · by_cases h2 : cfg.emailRecipients.isEmpty = true
      · simp [send_email, h1, h2]
      · simp [send_email, h1, h2, h]
  · intro cfg env e h
    by_cases h1 : (!cfg.enableSlack) = true
    · simp [send_slack_notification, h1]
    · by_cases h2 : (cfg.slackWebhookUrl == "") = true
      · simp [send_slack_notification, h1, h2]
      · simp [send_slack_notification, h1, h2, h]
  · intro cfg env s bid ac pc hfresh
    have hrow : (store_budget_alert s bid ac pc).1.alerts =
        s.alerts ++ [⟨s.nextId, bid, ac, pc, false⟩] := rfl
    have hid : (store_budget_alert s bid ac pc).2 = s.nextId := rfl
    rw [dispatchStored, hid]
    by_cases hsent : ((send_email cfg env).1 || (send_slack_notification cfg env).1) = true
    · rw [if_pos hsent]
      show (markFirst (store_budget_alert s bid ac pc).1.alerts s.nextId).getLast? = _
      rw [hrow, markFirst_append_fresh s.alerts _ s.nextId hfresh rfl]
      simp [hsent]
    · rw [if_neg hsent]
      show (store_budget_alert s bid ac pc).1.alerts.getLast? = _
      rw [hrow]
      simp only [Bool.not_eq_true] at hsent
      simp [hsent]
  · intro cfg env alert_id s n hem hsl
    have hfix : dispatchStored cfg env alert_id s = s := by
      rw [dispatchStored,
        hemail_off cfg env (Or.inl hem), hslack_off cfg env (Or.inl hsl)]
      rfl
    -- iterate a fixed point
    have : ∀ m t, dispatchStored cfg env alert_id t = t →
        (dispatchStored cfg env alert_id)^[m] t = t := by
      intro m
      induction m with
      | zero => intro t _; rfl
      | succ k ih =>
        intro t ht
        rw [Function.iterate_succ_apply, ht]
        exact ih t ht
    refine this n s ?_
    rw [dispatchStored,
      hemail_off cfg env (Or.inl hem), hslack_off cfg env (Or.inl hsl)]
    rfl

/-- Witness for `dispatch_channels_independent`: with everything disabled a
stored alert is dispatched with neither channel attempted and stays
unnotified, across 3 attempts too. -/
theorem dispatch_channels_independent_witness :
    send_email ⟨false, "", [], false, ""⟩ ⟨.ok (), .ok 200⟩ = (false, false) ∧
    send_slack_notification ⟨false, "", [], false, ""⟩ ⟨.ok (), .ok 200⟩ = (false, false) ∧
    (send_email ⟨true, "a@b", ["c@d"], true, "https://h"⟩ ⟨.error (), .error ()⟩).1 = false ∧
    (send_slack_notification ⟨true, "a@b", ["c@d"], true, "https://h"⟩ ⟨.error (), .error ()⟩).1 = false ∧
    (dispatchStored ⟨false, "", [], false, ""⟩ ⟨.ok (), .ok 200⟩
        (store_budget_alert ⟨[], 1⟩ 4 620 24).2
        (store_budget_alert ⟨[], 1⟩ 4 620 24).1).alerts.getLast? =
      some ⟨1, 4, 620, 24, false⟩ ∧
    (dispatchStored ⟨false, "", [], false, ""⟩ ⟨.ok (), .ok 200⟩ 1)^[3]
        (store_budget_alert ⟨[], 1⟩ 4 620 24).1 =
      (store_budget_alert ⟨[], 1⟩ 4 620 24).1 := by
  refine ⟨dispatch_channels_independent.1 _ _ (Or.inl rfl),
    dispatch_channels_independent.2.1 _ _ (Or.inl rfl),
    dispatch_channels_independent.2.2.1 _ _ () rfl,
    dispatch_channels_independent.2.2.2.1 _ _ () rfl,
    ?_, dispatch_channels_independent.2.2.2.2.2 _ _ 1 _ 3 rfl rfl⟩
  have h := dispatch_channels_independent.2.2.2.2.1
    ⟨false, "", [], false, ""⟩ ⟨.ok (), .ok 200⟩ ⟨[], 1⟩ 4 620 24 (by simp)
  simpa using h

/-- Marking an alert notified changes no row's budget reference, so
per-budget alert counts are untouched. -/
theorem countAlertsFor_mark (bid : Nat) (s : DBState) (aid : Nat) :
    countAlertsFor bid (mark_alert_notified s aid) = countAlertsFor bid s := by
  show ((markFirst s.alerts aid).filter (fun r => r.budget_id == bid)).length =
    (s.alerts.filter (fun r => r.budget_id == bid)).length
  induction s.alerts with
  | nil => rfl
  | cons r rs ih =>
    simp only [markFirst]
    by_cases h : (r.id == aid) = true
    · rw [if_pos h]
      by_cases hb : (r.budget_id == bid) = true
      · simp [List.filter_cons, hb]
      · simp [List.filter_cons, hb]
    · rw [if_neg h]
      by_cases hb : (r.budget_id == bid) = true
      · simp [List.filter_cons, hb, ih]
      · simp [List.filter_cons, hb, ih]

/-- Storing an alert for budget `b` raises its alert count by one and
leaves other budgets' counts unchanged. -/
theorem countAlertsFor_store (bid b : Nat) (s : DBState) (ac pc : ℚ) :
    countAlertsFor bid (store_budget_alert s b ac pc).1 =
      countAlertsFor bid s + (if b == bid then 1 else 0) := by
  show ((s.alerts ++ [(⟨s.nextId, b, ac, pc, false⟩ : AlertRow)]).filter
      (fun r => r.budget_id == bid)).length = _
  rw [List.filter_append, List.length_append]
  by_cases hb : (b == bid) = true
  · simp [List.filter_cons, hb, countAlertsFor]
  · simp [List.filter_cons, hb, countAlertsFor]

/-- `dispatchStored` only ever marks, so it preserves per-budget counts. -/
theorem countAlertsFor_dispatchStored (bid : Nat) (cfg : NotifConfig)
    (env : ChannelEnv) (aid : Nat) (s : DBState) :
    countAlertsFor bid (dispatchStored cfg env aid s) = countAlertsFor bid s := by
  rw [dispatchStored]
  by_cases h : ((send_email cfg env).1 || (send_slack_notification cfg env).1) = true
  · rw [if_pos h, countAlertsFor_mark]
  · rw [if_neg h]

/-- Processing any alert never lowers a budget's alert count. -/
theorem countAlertsFor_processAlert_mono (bid : Nat) (cfg : NotifConfig)
    (env : ChannelEnv) (bs : List BudgetRow) (s : DBState) (a : AlertInfo) :
    countAlertsFor bid s ≤ countAlertsFor bid (processAlert cfg env bs s a) := by
  rw [processAlert]
  cases hfind : findBudgetId bs a.name with
  | none => exact le_refl _
  | some b =>
    simp only
    by_cases hz : ((store_budget_alert s b a.actual a.percentage).2 == 0) = true
    · rw [if_pos hz, countAlertsFor_store]
      exact Nat.le_add_right _ _
    · rw [if_neg hz, countAlertsFor_dispatchStored, countAlertsFor_store]
      exact Nat.le_add_right _ _

/-- Processing an alert whose budget resolves to `bid` raises that budget's
alert count by exactly one. -/
theorem countAlertsFor_processAlert_hit (bid : Nat) (cfg : NotifConfig)
    (env : ChannelEnv) (bs : List BudgetRow) (s : DBState) (a : AlertInfo)
    (hfind : findBudgetId bs a.name = some bid) :
    countAlertsFor bid (processAlert cfg env bs s a) = countAlertsFor bid s + 1 := by
  rw [processAlert, hfind]
  simp only
  by_cases hz : ((store_budget_alert s bid a.actual a.percentage).2 == 0) = true
  · rw [if_pos hz, countAlertsFor_store]
    simp
  · rw [if_neg hz, countAlertsFor_dispatchStored, countAlertsFor_store]
    simp

/-- Folding the per-alert body over any alert list never lowers a budget's
alert count. -/
theorem countAlertsFor_foldl_mono (bid : Nat) (cfg : NotifConfig)
    (env : ChannelEnv) (bs : List BudgetRow) (l : List AlertInfo) (s : DBState) :
    countAlertsFor bid s ≤ countAlertsFor bid (l.foldl (processAlert cfg env bs) s) := by
  induction l generalizing s with
  | nil => exact le_refl _
  | cons a rest ih =>
    rw [List.foldl_cons]
    exact le_trans (countAlertsFor_processAlert_mono bid cfg env bs s a)
      (ih (processAlert cfg env bs s a))

/-- One evaluation+dispatch cycle adds at least one alert row for a budget
that is currently breached. -/
theorem countAlertsFor_cycle (cfg : NotifConfig) (env : ChannelEnv)
    (bs : List BudgetRow) (ledger : CostFrame) (now : Date) (a : AlertInfo) (bid : Nat)
    (ha : a ∈ check_budgets ledger now (registryOf bs))
    (hid : findBudgetId bs a.name = some bid) (s : DBState) :
    countAlertsFor bid s + 1 ≤
      countAlertsFor bid (check_budgets_and_send_alerts cfg env bs ledger now s) := by
  have hbs : bs.isEmpty = false := by
    cases bs with
    | nil => exact absurd hid (by simp [findBudgetId])
    | cons x xs => rfl
  rw [check_budgets_and_send_alerts]
  rw [if_neg (by simp [hbs])]
  obtain ⟨l1, l2, heq⟩ := List.append_of_mem ha
  rw [heq, List.foldl_append, List.foldl_cons]
  refine le_trans ?_ (countAlertsFor_foldl_mono bid cfg env bs l2 _)
  rw [countAlertsFor_processAlert_hit bid cfg env bs _ a hid]
  have := countAlertsFor_foldl_mono bid cfg env bs l1 s
  omega

/-- C8: whenever some budget's current spend breaches its amount (it
produces an alert whose name resolves to budget id `bid`), every invocation
of the check-and-alert cycle stores a further `BudgetAlert` row for that
budget: after `n` invocations at least `n` new rows exist — there is no
suppression window. -/
theorem repeated_checks_duplicate_alerts (cfg : NotifConfig) (env : ChannelEnv)
    (bs : List BudgetRow) (ledger : CostFrame) (now : Date) (a : AlertInfo) (bid : Nat)
    (ha : a ∈ check_budgets ledger now (registryOf bs))
    (hid : findBudgetId bs a.name = some bid) :
    ∀ (s : DBState) (n : Nat),
      countAlertsFor bid s + n ≤
        countAlertsFor bid
          ((fun t => check_budgets_and_send_alerts cfg env bs ledger now t)^[n] s) := by
  intro s n
  induction n generalizing s with
  | zero => simp
  | succ k ih =>
    rw [Function.iterate_succ_apply]
    have h1 := countAlertsFor_cycle cfg env bs ledger now a bid ha hid s
    have h2 := ih (check_budgets_and_send_alerts cfg env bs ledger now s)
    omega

/-- Witness for `repeated_checks_duplicate_alerts`: with one breached
budget (amount 1000, spend 1250) two cycle invocations on an empty alert
ledger leave at least two alert rows for budget 1. -/
theorem repeated_checks_duplicate_alerts_witness :
    countAlertsFor 1 ⟨[], 1⟩ + 2 ≤
      countAlertsFor 1 ((fun t => check_budgets_and_send_alerts
        ⟨false, "", [], false, ""⟩ ⟨.ok (), .ok 200⟩
        budgetsTableOne ledgerSpend1250 nowMid2025 t)^[2] ⟨[], 1⟩) :=
  repeated_checks_duplicate_alerts ⟨false, "", [], false, ""⟩ ⟨.ok (), .ok 200⟩
    budgetsTableOne ledgerSpend1250 nowMid2025
    ⟨"Total", 1000, 1250, 25, "monthly", "All", "All"⟩ 1
    (by
      have h : check_budgets ledgerSpend1250 nowMid2025 (registryOf budgetsTableOne) =
          [⟨"Total", 1000, 1250, 25, "monthly", "All", "All"⟩] := by
        simp [registryOf, budgetsTableOne, add_budget, check_budgets, List.filterMap,
          checkOneBudget, periodWindow, get_cost_data, ledgerSpend1250, nowMid2025,
          serviceFilter, sumCostColumn, dateLE, List.filter]
        norm_num
      rw [h]
      exact List.mem_singleton.mpr rfl)
    rfl ⟨[], 1⟩ 2
